import Mathlib

/-
Verification of the boson sqlalchemy DB API (src/boson/db/sqlalchemy/api.py)
against its natural-language specification.

The source is embedded shallowly: each DB-API method becomes a function over
an explicit `ApiState` (the visible session state, the last committed state,
an id counter, a clock, and the log), returning `Except PyErr` for Python
exceptions that actually escape to the caller.  Exceptions that the source
raises inside a `try: ... except Exception: LOG.exception(err)` block are
swallowed there; the embedding records them in the log and continues, exactly
as the Python control flow does.
-/

namespace Boson

/-- Error conditions of the DB API.  `duplicate`, `typeError` and `keyError`
appear in the source (`Duplicate`, `TypeError`, `KeyError`); `overQuota` is the
condition the spec's reservation design prescribes — the source never raises
it. -/
inductive PyErr where
  | typeError : PyErr
  | keyError : String → PyErr
  | duplicate : PyErr
  | overQuota : PyErr
deriving Repr, DecidableEq

/-- Auth-data and parameter-data dictionaries, modelled as association lists
compared for exact equality, matching the source's direct column-equality
filters (e.g. `Usage.auth_data == auth_data`). -/
abbrev FieldMap := List (String × String)

/-- Modelled from the spec: reservation status.  The sqlalchemy models module
(`boson.db.sqlalchemy.models`) is not part of the source tree; the spec's data
model gives `status ∈ PENDING, COMMITTED, ROLLED_BACK` with PENDING the only
initial state. -/
inductive ResStatus where
  | pending : ResStatus
  | committed : ResStatus
  | rolledBack : ResStatus
deriving Repr, DecidableEq

structure Service where
  id : String
  created_at : Nat
  updated_at : Nat
  name : String
  auth_fields : List String
deriving Repr, DecidableEq

structure Category where
  id : String
  created_at : Nat
  updated_at : Nat
  name : String
  service_id : String
  usage_fset : List String
  quota_fsets : List (List String)
deriving Repr, DecidableEq

structure Resource where
  id : String
  created_at : Nat
  updated_at : Nat
  name : String
  service_id : String
  category_id : String
  parameters : List String
  absolute : Bool
deriving Repr, DecidableEq

/-- The Usage row.  `used` and `reserved` are in the spec's data model; the
source's `create_usage` never passes them to the row constructor, so the
column default (0 per the spec's signature defaults) is what a row would
carry. -/
structure Usage where
  id : String
  created_at : Nat
  updated_at : Nat
  resource_id : String
  parameter_data : FieldMap
  auth_data : FieldMap
  used : Int
  reserved : Int
  until_refresh : Int
  refresh_id : Option String
deriving Repr, DecidableEq

structure Quota where
  id : String
  created_at : Nat
  updated_at : Nat
  resource_id : String
  auth_data : FieldMap
  limit : Option Int
deriving Repr, DecidableEq

structure Reservation where
  id : String
  created_at : Nat
  updated_at : Nat
  expire : Nat
  status : ResStatus
deriving Repr, DecidableEq

structure ReservedItem where
  id : String
  created_at : Nat
  updated_at : Nat
  reservation_id : String
  resource_id : String
  usage_id : String
  delta : Int
deriving Repr, DecidableEq

/-- All tables of the store. -/
structure DB where
  services : List Service := []
  categories : List Category := []
  resources : List Resource := []
  usages : List Usage := []
  quotas : List Quota := []
  reservations : List Reservation := []
  reserved_items : List ReservedItem := []
deriving Repr, DecidableEq

/-- The per-call state: `current` is what the session sees (queries read it,
`session.add` extends it), `saved` is the last committed state, `next_id`
feeds `utils.generate_uuid`, `clock` feeds `datetime.now`, and `log` records
`LOG.error` / `LOG.exception` calls. -/
structure ApiState where
  current : DB := {}
  saved : DB := {}
  next_id : Nat := 0
  clock : Nat := 0
  log : List String := []
deriving Repr, DecidableEq

def ApiState.logMsg (s : ApiState) (m : String) : ApiState :=
  { s with log := s.log ++ [m] }

/-- `utils.generate_uuid`, modelled as a counter-derived fresh id. -/
def genId (n : Nat) : String := "uuid-" ++ toString n

/-- An argument that the docstrings say may be either a full model record or a
bare id string. -/
inductive Arg (α : Type) where
  | obj : α → Arg α
  | id : String → Arg α
deriving Repr, DecidableEq

/-- Embeds the source idiom `if isinstance(sa_models.Klass, v): v = v.id`
(e.g. lines 218, 361-363, 515, 574, 659, 714, 809-815).  The isinstance
arguments are reversed: Python's `isinstance` requires its second argument to
be a type (or tuple of types), and the source passes the value under test — a
model record, an id string, or None — so every such call raises `TypeError`
whatever the argument is, and the normalization to an id never happens. -/
def normalize_arg {α : Type} (x : Arg α) : Except PyErr String :=
  Except.error PyErr.typeError

/-- Same reversed-isinstance idiom applied to an optional argument (the
`get_*` lookups): `isinstance(sa_models.Klass, None)` also raises `TypeError`
because `None` is not a type. -/
def normalize_arg? {α : Type} (x : Option (Arg α)) : Except PyErr (Option String) :=
  Except.error PyErr.typeError

/-- Python truthiness of an optional string: `None` and the empty string are
falsy. -/
def truthy : Option String → Bool
  | none => false
  | some v => !(v == "")

/-- `API.commit` (source lines 56-64): `context.session.commit()` — ends the
transaction by committing the session, so the session's visible state becomes
the durable state.  Nothing else happens: no Usage counter moves and no
reservation status is written. -/
def commit (s : ApiState) : ApiState := { s with saved := s.current }

/-- `API.rollback` (source lines 67-75): `context.session.rollback()` — ends
the transaction by discarding uncommitted session changes, restoring the last
committed state.  No Usage counter is decremented and no reservation status is
written. -/
def rollback (s : ApiState) : ApiState := { s with current := s.saved }

/-- `API.create_service` (source lines 78-110).  The existing-name lookup runs
first, but the `raise Duplicate` sits inside `try: ... except Exception as
err: LOG.exception(err)`, so the exception is logged and swallowed and
execution falls through to insert a second row regardless. -/
def create_service (s : ApiState) (name : String) (auth_fields : List String) :
    Except PyErr (Service × ApiState) :=
  let existing := s.current.services.find? (fun r => r.name == name)
  let s1 :=
    match existing with
    | some _ => (s.logMsg ("error: duplicate service")).logMsg ("exception: Duplicate")
    | none => s
  let svc : Service :=
    { id := genId s1.next_id, created_at := s1.clock, updated_at := s1.clock,
      name := name, auth_fields := auth_fields }
  Except.ok (svc,
    { s1 with next_id := s1.next_id + 1,
              current := { s1.current with services := s1.current.services ++ [svc] } })

/-- `API.get_service` (source lines 112-161).  Both `raise TypeError` sites
and the `raise KeyError` site live inside `try/except` blocks that log and
swallow them, so no exception ever escapes: the function then filters by id
when id is not None (whatever `name` is), else by name, and returns the first
row, or Python `None` when nothing matches.  Note the validation itself is
inverted: the `elif id and name is None` branch raises (and logs) `TypeError`
precisely in the valid id-only case. -/
def get_service (s : ApiState) (id? : Option String) (name? : Option String) :
    Except PyErr (Option Service × ApiState) :=
  let s1 :=
    if truthy id? && name?.isSome then
      (s.logMsg ("error: both id and name supplied")).logMsg ("exception: TypeError")
    else if truthy id? && name?.isNone then
      (s.logMsg ("error: id supplied without name")).logMsg ("exception: TypeError")
    else s
  let found :=
    match id? with
    | some i => s.current.services.find? (fun r => r.id == i)
    | none => s.current.services.find? (fun r => name? == some r.name)
  match found with
  | none =>
    Except.ok (none, (s1.logMsg ("error: no matching service")).logMsg ("exception: KeyError"))
  | some svc => Except.ok (some svc, s1)

/-- `API.create_category` (source lines 184-239).  The first statement is the
reversed isinstance on `service` (line 218), so every call raises `TypeError`;
the remainder (duplicate lookup with a swallowed raise, then the insert) is
unreachable but embedded below for comparison with the source. -/
def create_category (s : ApiState) (service : Arg Service) (name : String)
    (usage_fset : List String) (quota_fsets : List (List String)) :
    Except PyErr (Category × ApiState) := do
  let service_id ← normalize_arg service
  let existing := s.current.categories.find? (fun r =>
    r.name == name && r.service_id == service_id)
  let s1 :=
    match existing with
    | some _ => (s.logMsg ("error: duplicate category")).logMsg ("exception: Duplicate")
    | none => s
  let cat : Category :=
    { id := genId s1.next_id, created_at := s1.clock, updated_at := s1.clock,
      name := name, service_id := service_id, usage_fset := usage_fset,
      quota_fsets := quota_fsets }
  Except.ok (cat,
    { s1 with next_id := s1.next_id + 1,
              current := { s1.current with categories := s1.current.categories ++ [cat] } })

/-- `API.create_resource` (source lines 324-387).  The two reversed isinstance
checks (lines 361-364) run first, so every call raises `TypeError`; the
remainder is unreachable but embedded for comparison with the source. -/
def create_resource (s : ApiState) (service : Arg Service) (category : Arg Category)
    (name : String) (parameters : List String) (absolute : Bool) :
    Except PyErr (Resource × ApiState) := do
  let service_id ← normalize_arg service
  let category_id ← normalize_arg category
  let existing := s.current.resources.find? (fun r =>
    r.name == name && r.service_id == service_id && r.category_id == category_id)
  let s1 :=
    match existing with
    | some _ => (s.logMsg ("error: duplicate resource")).logMsg ("exception: Duplicate")
    | none => s
  let res : Resource :=
    { id := genId s1.next_id, created_at := s1.clock, updated_at := s1.clock,
      name := name, service_id := service_id, category_id := category_id,
      parameters := parameters, absolute := absolute }
  Except.ok (res,
    { s1 with next_id := s1.next_id + 1,
              current := { s1.current with resources := s1.current.resources ++ [res] } })

/-- `API.create_usage` (source lines 473-538).  The first statement is the
reversed isinstance on `resource` (line 515), so every call raises
`TypeError`.  In the unreachable remainder the `raise Duplicate` is swallowed
by `try/except`, and the row constructor (lines 529-536) does not pass `used`
or `reserved` at all — the supplied values are dropped and the column default
0 is what the row would carry. -/
def create_usage (s : ApiState) (resource : Arg Resource) (param_data : FieldMap)
    (auth_data : FieldMap) (used : Int) (reserved : Int) (until_refresh : Int)
    (refresh_id : Option String) : Except PyErr (Usage × ApiState) := do
  let resource_id ← normalize_arg resource
  let existing := s.current.usages.find? (fun r =>
    r.resource_id == resource_id && r.auth_data == auth_data
      && r.parameter_data == param_data)
  let s1 :=
    match existing with
    | some _ => (s.logMsg ("error: duplicate usage")).logMsg ("exception: Duplicate")
    | none => s
  let u : Usage :=
    { id := genId s1.next_id, created_at := s1.clock, updated_at := s1.clock,
      resource_id := resource_id, parameter_data := param_data,
      auth_data := auth_data, used := 0, reserved := 0,
      until_refresh := until_refresh, refresh_id := refresh_id }
  Except.ok (u,
    { s1 with next_id := s1.next_id + 1,
              current := { s1.current with usages := s1.current.usages ++ [u] } })

/-- `API.get_usage` (source lines 540-605).  The first statement is the
reversed isinstance on `resource` (line 574) — which raises `TypeError` even
when `resource` is None, i.e. on pure-id lookups too.  The unreachable
remainder (swallowed argument checks, filter by id else by the fingerprint
triple, swallowed KeyError) is embedded for comparison with the source. -/
def get_usage (s : ApiState) (id? : Option String) (resource? : Option (Arg Resource))
    (param_data? : Option FieldMap) (auth_data? : Option FieldMap) :
    Except PyErr (Option Usage × ApiState) := do
  let resource_id? ← normalize_arg? resource?
  let found :=
    match id? with
    | some i => s.current.usages.find? (fun r => r.id == i)
    | none => s.current.usages.find? (fun r =>
        some r.resource_id == resource_id? && some r.parameter_data == param_data?
          && some r.auth_data == auth_data?)
  match found with
  | none =>
    Except.ok (none, (s.logMsg ("error: no matching usage")).logMsg ("exception: KeyError"))
  | some u => Except.ok (some u, s)

/-- `API.create_quota` (source lines 639-680).  The first statement is the
reversed isinstance on `resource` (line 659), so every call raises
`TypeError`.  In the unreachable remainder the `raise Duplicate` is swallowed,
and the constructor (line 676) misspells the keyword as `resorce_id`, so even
this dead insert would not populate the row's resource_id. -/
def create_quota (s : ApiState) (resource : Arg Resource) (auth_data : FieldMap)
    (limit : Option Int) : Except PyErr (Quota × ApiState) := do
  let resource_id ← normalize_arg resource
  let existing := s.current.quotas.find? (fun r =>
    r.resource_id == resource_id && r.auth_data == auth_data)
  let s1 :=
    match existing with
    | some _ => (s.logMsg ("error: duplicate quota")).logMsg ("exception: Duplicate")
    | none => s
  let q : Quota :=
    { id := genId s1.next_id, created_at := s1.clock, updated_at := s1.clock,
      resource_id := resource_id, auth_data := auth_data, limit := limit }
  Except.ok (q,
    { s1 with next_id := s1.next_id + 1,
              current := { s1.current with quotas := s1.current.quotas ++ [q] } })

/-- `API.get_quota` (source lines 682-741).  The first statement is the
reversed isinstance on `resource` (line 714), which raises `TypeError` on
every call, id-only lookups included.  The unreachable remainder is embedded
for comparison with the source. -/
def get_quota (s : ApiState) (id? : Option String) (resource? : Option (Arg Resource))
    (auth_data? : Option FieldMap) : Except PyErr (Option Quota × ApiState) := do
  let resource_id? ← normalize_arg? resource?
  let found :=
    match id? with
    | some i => s.current.quotas.find? (fun r => r.id == i)
    | none => s.current.quotas.find? (fun r =>
        some r.resource_id == resource_id? && some r.auth_data == auth_data?)
  match found with
  | none =>
    Except.ok (none, (s.logMsg ("error: no matching quota")).logMsg ("exception: KeyError"))
  | some q => Except.ok (some q, s)

/-- `API.create_reservation` (source lines 770-786).  Creates the envelope;
the constructor passes no status, and the models module is not in the source
tree, so the status is modelled from the spec: PENDING is the only initial
state. -/
def create_reservation (s : ApiState) (expire : Nat) :
    Except PyErr (Reservation × ApiState) :=
  let r : Reservation :=
    { id := genId s.next_id, created_at := s.clock, updated_at := s.clock,
      expire := expire, status := ResStatus.pending }
  Except.ok (r,
    { s with next_id := s.next_id + 1,
             current := { s.current with reservations := s.current.reservations ++ [r] } })

/-- `API.reserve` (source lines 789-826).  The first statement,
`isinstance(sa_models.Reservation, reservation)` (line 809), has the
isinstance arguments reversed and raises `TypeError` on every call — whether
the arguments are model records or id strings — before anything else runs.
There is no quota check, no `OverQuota`, and no update of any Usage row
anywhere in the body; the unreachable tail only constructs a ReservedItem and
misspells the resource keyword as `resorce_id` (line 822), so the item's
resource_id would not be populated even if reached.  The tail below records
the normalized resource id in the field the source intended. -/
def reserve (s : ApiState) (reservation : Arg Reservation) (resource : Arg Resource)
    (usage : Arg Usage) (delta : Int) : Except PyErr (ReservedItem × ApiState) := do
  let reservation_id ← normalize_arg reservation
  let resource_id ← normalize_arg resource
  let usage_id ← normalize_arg usage
  let item : ReservedItem :=
    { id := genId s.next_id, created_at := s.clock, updated_at := s.clock,
      reservation_id := reservation_id, resource_id := resource_id,
      usage_id := usage_id, delta := delta }
  Except.ok (item,
    { s with next_id := s.next_id + 1,
             current := { s.current with
                          reserved_items := s.current.reserved_items ++ [item] } })

/-- Modelled from the spec: projection of auth data onto a field-set — keep
only the named fields.  The QuotaResolver walk of section 4.3 has no
implementation in the source tree (its `get_quota` is only a single
(resource, auth_data) row lookup, and one that always raises `TypeError`). -/
def project (fset : List String) (auth_data : FieldMap) : FieldMap :=
  auth_data.filter (fun kv => fset.contains kv.1)

/-- Modelled from the spec: "look up a Quota row keyed by (resource_id,
projected auth_data)". -/
def find_quota (db : DB) (resource_id : String) (auth_data : FieldMap) : Option Quota :=
  db.quotas.find? (fun q => q.resource_id == resource_id && q.auth_data == auth_data)

/-- Modelled from the spec: walk `quota_fsets` from index 0 (most specific);
the first field-set whose projection of the auth data matches a Quota row
wins and resolution stops there; if no field-set matches, the resource is
unlimited (`limit = None`). -/
def resolve_quota (db : DB) (resource_id : String) (quota_fsets : List (List String))
    (auth_data : FieldMap) : Option Int :=
  match quota_fsets with
  | [] => none
  | fset :: rest =>
    match find_quota db resource_id (project fset auth_data) with
    | some q => q.limit
    | none => resolve_quota db resource_id rest auth_data

/-- A service row used by the concrete test states. -/
def svc1 : Service :=
  { id := "S1", created_at := 0, updated_at := 0, name := "nova",
    auth_fields := ["tenant_id"] }

/-- A usage row with ten in use and three provisionally reserved. -/
def usage1 : Usage :=
  { id := "u1", created_at := 0, updated_at := 0, resource_id := "r1",
    parameter_data := [], auth_data := [("tenant_id", "T1")],
    used := 10, reserved := 3, until_refresh := 0, refresh_id := none }

/-- A pending reservation envelope. -/
def res1 : Reservation :=
  { id := "R1", created_at := 0, updated_at := 0, expire := 100,
    status := ResStatus.pending }

/-- The reserved item tying `res1` to `usage1` with delta 3. -/
def item1 : ReservedItem :=
  { id := "i1", created_at := 0, updated_at := 0, reservation_id := "R1",
    resource_id := "r1", usage_id := "u1", delta := 3 }

/-- A store holding the rows above. -/
def db1 : DB :=
  { services := [svc1], usages := [usage1], reservations := [res1],
    reserved_items := [item1] }

/-- A freshly committed state over `db1`. -/
def st1 : ApiState := { current := db1, saved := db1, next_id := 5, clock := 7 }

/-- A tenant-specific quota of 5 for resource r1. -/
def quotaT1 : Quota :=
  { id := "q1", created_at := 0, updated_at := 0, resource_id := "r1",
    auth_data := [("tenant_id", "T1")], limit := some 5 }

/-- The default (empty-projection) quota of 10 for resource r1. -/
def quotaDefault : Quota :=
  { id := "q2", created_at := 0, updated_at := 0, resource_id := "r1",
    auth_data := [], limit := some 10 }

/-- A store holding both quotas of the spec's worked example. -/
def dbQ : DB := { quotas := [quotaT1, quotaDefault] }

/-- A store holding only the default (empty-projection) quota, used to
exercise a walk that must move past a non-matching field-set. -/
def dbQdefault : DB := { quotas := [quotaDefault] }

/-- C1: the claim says `reserve` re-validates the quota and fails with
OverQuota when `used + reserved + delta` exceeds the resolved limit, and
otherwise attaches a ReservedItem and increments the Usage row's `reserved`
by delta.  The source's `reserve` instead raises TypeError on every call (the
reversed isinstance at line 809 fires before anything else): it never raises
OverQuota, never attaches a ReservedItem, and never touches any Usage row. -/
theorem c1_reserve_always_type_error (s : ApiState) (reservation : Arg Reservation)
    (resource : Arg Resource) (usage : Arg Usage) (delta : Int) :
    reserve s reservation resource usage delta = Except.error PyErr.typeError := rfl

/-- C2: the claim says committing a reservation applies `used += delta;
reserved -= delta` for each ReservedItem and marks the reservation COMMITTED.
The source's `commit` (lines 56-64) only commits the DB session: on a state
holding a PENDING reservation with one item of delta 3 against a usage with
used = 10 and reserved = 3, the usage row still has used = 10 and
reserved = 3 after the call (the claim requires 13 and 0) and the reservation
is still PENDING (the claim requires COMMITTED). -/
theorem c2_commit_moves_no_deltas :
    (commit st1).current.usages = [usage1] ∧
    (commit st1).current.reservations = [res1] ∧
    usage1.used = 10 ∧ usage1.reserved = 3 ∧ res1.status = ResStatus.pending :=
  ⟨rfl, rfl, rfl, rfl, rfl⟩

/-- C3: the claim says a second `create_*` with the same natural key fails
with Duplicate and leaves one row.  In the source's `create_service` the
`raise Duplicate` is swallowed by the surrounding `try/except` (the log shows
it fired), and a second row with the same name is inserted and returned; and
`create_usage` cannot even reach its duplicate check — every call raises
TypeError at the reversed isinstance on line 515. -/
theorem c3_duplicate_swallowed_second_row_inserted :
    ((create_service {} ("nova") ["tenant_id"]).toOption.map (fun p =>
        (create_service p.2 ("nova") ["tenant_id"]).toOption)) =
      some (some
        ({ id := "uuid-1", created_at := 0, updated_at := 0, name := "nova",
           auth_fields := ["tenant_id"] },
         { current :=
             { services :=
                 [{ id := "uuid-0", created_at := 0, updated_at := 0, name := "nova",
                    auth_fields := ["tenant_id"] },
                  { id := "uuid-1", created_at := 0, updated_at := 0, name := "nova",
                    auth_fields := ["tenant_id"] }] },
           saved := {}, next_id := 2, clock := 0,
           log := ["error: duplicate service", "exception: Duplicate"] })) ∧
    create_usage {} (Arg.id ("r1")) [] [("tenant_id", "T1")] 0 0 0 none =
      Except.error PyErr.typeError := by
  exact ⟨rfl, rfl⟩

/-- C4: the claim says get with both id and natural key, or with neither,
fails with InvalidArguments, and a nonexistent id fails with NotFound.  In
the source's `get_service` every raise (both TypeErrors and the KeyError) is
swallowed by a `try/except` that merely logs: both-supplied returns the row
found by id, neither-supplied returns None, and a nonexistent id returns
None — no call fails.  The log of the nonexistent-id call also shows the
inverted validation: the valid id-only combination logged a (swallowed)
TypeError. -/
theorem c4_get_service_swallows_all_errors :
    (get_service st1 (some ("S1")) (some ("whatever"))).toOption.map (fun p => p.1) =
      some (some svc1) ∧
    (get_service {} none none).toOption.map (fun p => p.1) = some none ∧
    (get_service {} (some ("nonexistent")) none).toOption.map (fun p => p.1) =
      some none ∧
    (get_service {} (some ("nonexistent")) none).toOption.map (fun p => p.2.log) =
      some ["error: id supplied without name", "exception: TypeError",
            "error: no matching service", "exception: KeyError"] :=
  ⟨rfl, rfl, rfl, rfl⟩

/-- C5: quota resolution walks `quota_fsets` from index 0 onward, projecting
the auth data onto each field-set in turn; the first field-set (at any index)
whose projection matches a Quota row supplies the limit, and the walk stops
there even when a later field-set would match a different row; a walk that
exhausts any list of field-sets without a match yields None (unlimited).
Proved of the resolver modelled from the spec (the walk has no implementation
in the source tree): the first clause handles a match at an arbitrary index —
every earlier field-set misses, the match wins, the `rest` beyond it is
ignored; the second clause gives None for every fully missing list.  The
closed clauses instantiate this: the spec's worked example resolves to 5, not
10; a store with only the default quota forces the walk past the
non-matching tenant field-set to the match at index 1; and the same store
under a walk with no default field-set exhausts and yields None. -/
theorem c5_first_matching_fset_wins :
    (∀ (db : DB) (rid : String) (pre : List (List String)) (fset : List String)
        (rest : List (List String)) (ad : FieldMap) (q : Quota),
      (∀ f ∈ pre, find_quota db rid (project f ad) = none) →
      find_quota db rid (project fset ad) = some q →
        resolve_quota db rid (pre ++ fset :: rest) ad = q.limit) ∧
    (∀ (db : DB) (rid : String) (fsets : List (List String)) (ad : FieldMap),
      (∀ f ∈ fsets, find_quota db rid (project f ad) = none) →
        resolve_quota db rid fsets ad = none) ∧
    resolve_quota dbQ ("r1") [["tenant_id"], []] [("tenant_id", "T1")] = some 5 ∧
    resolve_quota dbQdefault ("r1") [["tenant_id"], []] [("tenant_id", "T1")] =
      some 10 ∧
    resolve_quota dbQdefault ("r1") [["tenant_id"]] [("tenant_id", "T1")] = none := by
  refine ⟨?_, ?_, rfl, rfl, rfl⟩
  · intro db rid pre
    induction pre with
    | nil =>
      intro fset rest ad q hpre hq
      simp [resolve_quota, hq]
    | cons p ps ih =>
      intro fset rest ad q hpre hq
      have hp : find_quota db rid (project p ad) = none := hpre p (by simp)
      have hps : ∀ f ∈ ps, find_quota db rid (project f ad) = none := by
        intro f hf
        exact hpre f (by simp [hf])
      rw [List.cons_append]
      simp only [resolve_quota, hp]
      exact ih fset rest ad q hps hq
  · intro db rid fsets
    induction fsets with
    | nil =>
      intro ad h
      rfl
    | cons p ps ih =>
      intro ad h
      have hp : find_quota db rid (project p ad) = none := h p (by simp)
      have hps : ∀ f ∈ ps, find_quota db rid (project f ad) = none := by
        intro f hf
        exact h f (by simp [hf])
      simp only [resolve_quota, hp]
      exact ih ad hps

/-- C5 witness: the arbitrary-index first-match clause applied at a concrete
walk whose match sits at index 1, behind a non-matching field-set — both
hypotheses (the miss at index 0 and the match at index 1) discharged by
computation. -/
theorem c5_first_matching_fset_wins_witness :
    resolve_quota dbQdefault ("r1") [["tenant_id"], []] [("tenant_id", "T1")] =
      quotaDefault.limit :=
  c5_first_matching_fset_wins.1 dbQdefault ("r1") [["tenant_id"]] [] []
    [("tenant_id", "T1")] quotaDefault (by decide) rfl

/-- C6: the claim says rolling a reservation back decrements each Usage row's
`reserved` by the item's delta, leaves `used` unchanged, and marks the
reservation ROLLED_BACK.  The source's `rollback` (lines 67-75) only rolls
the DB session back to its last committed state: on a freshly committed state
holding a PENDING reservation with one item of delta 3 against a usage with
reserved = 3, the usage row still has reserved = 3 after the call (the claim
requires 0) and the reservation is still PENDING (the claim requires
ROLLED_BACK). -/
theorem c6_rollback_reverts_session_only :
    (rollback st1).current.usages = [usage1] ∧
    (rollback st1).current.reservations = [res1] ∧
    usage1.reserved = 3 ∧ res1.status = ResStatus.pending :=
  ⟨rfl, rfl, rfl, rfl⟩

/-- C7: the claim says a successful `create_usage` inserts a row carrying the
supplied `used` and `reserved`.  No `create_usage` call can succeed: every
call raises TypeError at the reversed isinstance on line 515; and the row
constructor in the unreachable remainder (lines 529-536) does not pass `used`
or `reserved` at all, so the supplied 5 and 2 could never be carried. -/
theorem c7_create_usage_never_succeeds :
    create_usage {} (Arg.id ("r1")) [] [("tenant_id", "T1")] 5 2 0 none =
      Except.error PyErr.typeError := rfl

/-- C8: the claim says Service/Category/Resource/Usage/Reservation arguments
may be passed as a record or as a bare id and are normalized to the id before
any lookup.  Every normalization site in the source is written
`isinstance(sa_models.Klass, value)` with the isinstance arguments reversed,
so both the record form and the id form raise TypeError before any lookup, in
`create_category`, `create_resource` and `reserve` alike. -/
theorem c8_object_or_id_both_raise (s : ApiState) (svc : Service) (sid : String)
    (res : Resource) (cat : Category) (rsv : Reservation) (u : Usage) :
    create_category s (Arg.obj svc) ("cat") [] [] = Except.error PyErr.typeError ∧
    create_category s (Arg.id sid) ("cat") [] [] = Except.error PyErr.typeError ∧
    create_resource s (Arg.obj svc) (Arg.obj cat) ("res") [] false =
      Except.error PyErr.typeError ∧
    create_resource s (Arg.id sid) (Arg.id ("c1")) ("res") [] false =
      Except.error PyErr.typeError ∧
    reserve s (Arg.obj rsv) (Arg.obj res) (Arg.obj u) 1 =
      Except.error PyErr.typeError ∧
    reserve s (Arg.id ("R1")) (Arg.id ("r1")) (Arg.id ("u1")) 1 =
      Except.error PyErr.typeError :=
  ⟨rfl, rfl, rfl, rfl, rfl, rfl⟩

/-- C9: the claim says each ReservedItem created by `reserve` records the
resource id passed in, equal to its target Usage row's resource_id.  On a
state whose usage u1 has resource_id r1, the matching `reserve` call raises
TypeError instead of creating any item (and the unreachable constructor
misspells the keyword as `resorce_id`, so the field would not be recorded
even if reached); the store's item table is untouched. -/
theorem c9_reserved_item_never_created :
    reserve st1 (Arg.id ("R1")) (Arg.id ("r1")) (Arg.id ("u1")) 3 =
      Except.error PyErr.typeError ∧
    st1.current.usages = [usage1] ∧ usage1.resource_id = "r1" :=
  ⟨rfl, rfl, rfl⟩

/-- C10 counterexample: the claim, instantiated at `get_usage` on a store
holding usage u1, says supplying id u1 together with the natural-key
arguments returns the row found by id.  The call instead raises TypeError at
the reversed isinstance before any filtering, so it does not return that
row. -/
theorem c10_counterexample :
    (get_usage st1 (some ("u1")) (some (Arg.id ("r1"))) (some [])
        (some [("tenant_id", "T1")])).toOption.map (fun p => p.1) ≠
      some (some usage1) := by
  decide

/-- C10 (amended): in `get_service`, when an id is supplied together with the
name and a row with that id exists, the lookup filters by the id alone and
returns that row, ignoring the name (same result as the id-only call); in
`get_usage` and `get_quota` the id never takes precedence, because every call
— natural-key arguments supplied or not — raises TypeError at the
reversed-isinstance normalization step before the id branch is reached. -/
theorem c10_id_precedence :
    (∀ (s : ApiState) (i n : String) (svc : Service),
      s.current.services.find? (fun r => r.id == i) = some svc →
        (get_service s (some i) (some n)).toOption.map (fun p => p.1) =
          some (some svc) ∧
        (get_service s (some i) none).toOption.map (fun p => p.1) =
          some (some svc)) ∧
    (∀ (s : ApiState) (i : String) (r : Arg Resource) (pd ad : FieldMap),
      get_usage s (some i) (some r) (some pd) (some ad) =
        Except.error PyErr.typeError) ∧
    (∀ (s : ApiState) (i : String) (r : Arg Resource) (ad : FieldMap),
      get_quota s (some i) (some r) (some ad) = Except.error PyErr.typeError) := by
  refine ⟨?_, ?_, ?_⟩
  · intro s i n svc h
    constructor
    · simp [get_service, h]
      exact ⟨_, rfl⟩
    · simp [get_service, h]
      exact ⟨_, rfl⟩
  · intro s i r pd ad
    rfl
  · intro s i r ad
    rfl

/-- C10 witness: the amended claim applied at a concrete store — the
get_service clause at the row with id S1 (the find hypothesis discharged by
computation) and the get_usage clause at a concrete call. -/
theorem c10_id_precedence_witness :
    (get_service st1 (some ("S1")) (some ("zzz"))).toOption.map (fun p => p.1) =
      some (some svc1) ∧
    get_usage st1 (some ("u1")) (some (Arg.id ("r1"))) (some []) (some []) =
      Except.error PyErr.typeError :=
  ⟨(c10_id_precedence.1 st1 ("S1") ("zzz") svc1 rfl).1,
   c10_id_precedence.2.1 st1 ("u1") (Arg.id ("r1")) [] []⟩

end Boson
